import Mathlib

/-!
# Verification of the pandemic workload supervisor

Shallow embedding of the parts of the `pandemic` code base that the
frozen claims are about, together with theorems settling each claim.

Covered source files:
* `pandemic_event_bus/events.py` and `pandemic_core/events.py`
  (`RateLimiter.allow_event`, identical in both packages);
* `pandemic_common/protocol.py` (`UDSProtocol.receive_message`,
  `UDSProtocol.create_response`) and `pandemic_common/daemon.py`
  (`UnixDaemonServer._handle_client`, `_process_message`);
* `pandemic_common/events.py` (`EventClient._compile_pattern`);
* `pandemic_systemd_helper/validator.py` (`RequestValidator`) and
  `pandemic_systemd_helper/daemon.py` (`HelperDaemon` routes);
* `pandemic_core/state.py` (`StateManager`);
* `pandemic_core/handlers.py` (`MessageHandler._handle_install`,
  `_handle_remove`);
* `pandemic_core/sources.py` (`SourceManager.install_from_source`,
  `_validate_source_security`).

Python `time.time()` values and the token arithmetic of the rate limiter
are modelled over `ℚ` (the source uses floats; the claims are about the
exact token-bucket arithmetic).  Byte streams are `List Nat`, strings are
`String`/`List Char`.  Fallible calls (`systemctl`, downloads) are
modelled as `Except String` oracles passed in as arguments.
-/

namespace Pandemic

/-! ## Rate limiter (`RateLimiter` in `pandemic_event_bus/events.py` and
`pandemic_core/events.py`, identical lines 50-72 resp. 54-78) -/

/-- State of `RateLimiter`: `max_events_per_second`, `burst_size`,
`tokens`, `last_refill`, modelled over `ℚ`. -/
structure RateLimiter where
  max_events_per_second : ℚ
  burst_size : ℚ
  tokens : ℚ
  last_refill : ℚ
deriving Repr, DecidableEq

namespace RateLimiter

/-- `RateLimiter.__init__`: `tokens = burst_size`, `last_refill = time.time()`. -/
def init (rate burst now : ℚ) : RateLimiter :=
  { max_events_per_second := rate, burst_size := burst, tokens := burst,
    last_refill := now }

/-- `RateLimiter.allow_event`, with the current clock `now` passed
explicitly.  Mirrors the Python body line by line:
`elapsed = now - last_refill`;
`tokens = min(burst_size, tokens + elapsed * max_events_per_second)`;
`last_refill = now`; then consume one token if `tokens >= 1`. -/
def allow_event (rl : RateLimiter) (now : ℚ) : Bool × RateLimiter :=
  let elapsed := now - rl.last_refill
  let tokens_to_add := elapsed * rl.max_events_per_second
  let tokens := min rl.burst_size (rl.tokens + tokens_to_add)
  if 1 ≤ tokens then
    (true, { rl with tokens := tokens - 1, last_refill := now })
  else
    (false, { rl with tokens := tokens, last_refill := now })

/-- `n` consecutive `allow_event` calls, all at clock `now`;
returns the list of results in call order and the final state. -/
def fire (rl : RateLimiter) (now : ℚ) : Nat → List Bool × RateLimiter
  | 0 => ([], rl)
  | n + 1 =>
    let (b, rl') := rl.allow_event now
    let (bs, rl'') := rl'.fire now n
    (b :: bs, rl'')

/-- A sequence of `allow_event` calls at the given clock values;
returns only the final state. -/
def run (rl : RateLimiter) : List ℚ → RateLimiter
  | [] => rl
  | t :: ts => ((rl.allow_event t).2).run ts

/-- With a clock equal to `last_refill` (zero elapsed time) and
`tokens ≤ burst_size`, `n ≤ tokens` consecutive calls all succeed and
consume exactly `n` tokens. -/
theorem fire_all_succeed (n : Nat) :
    ∀ rl : RateLimiter, rl.last_refill = 0 → rl.tokens ≤ rl.burst_size →
    (n : ℚ) ≤ rl.tokens →
    rl.fire 0 n = (List.replicate n true,
      { rl with tokens := rl.tokens - n }) := by
  induction n with
  | zero =>
    intro rl _ _ _
    simp [fire]
  | succ n ih =>
    intro rl hlast htb htok
    have htok' : (n : ℚ) + 1 ≤ rl.tokens := by
      have h := htok
      push_cast at h
      linarith
    have h1 : (1 : ℚ) ≤ rl.tokens := by
      linarith [Nat.cast_nonneg (α := ℚ) n]
    have h0 : rl.allow_event 0 =
        (true, { rl with tokens := rl.tokens - 1, last_refill := 0 }) := by
      have hmin : min rl.burst_size (rl.tokens + (0 - rl.last_refill) *
          rl.max_events_per_second) = rl.tokens := by
        rw [hlast]
        simp [min_eq_right htb]
      simp only [allow_event]
      rw [hmin, if_pos h1]
    have hn : (n : ℚ) ≤ rl.tokens - 1 := by linarith
    have hrec := ih { rl with tokens := rl.tokens - 1, last_refill := 0 }
      rfl (show rl.tokens - 1 ≤ rl.burst_size by linarith) hn
    simp only [fire, h0, hrec, Prod.mk.injEq]
    refine ⟨by simp [List.replicate], ?_⟩
    simp only [RateLimiter.mk.injEq]
    push_cast
    refine ⟨trivial, trivial, by ring, by rw [hlast]⟩

/-- A single refilling step preserves `0 ≤ tokens ≤ burst_size` when the
clock does not move backwards and the rate is nonnegative. -/
theorem allow_event_preserves_bounds (rl : RateLimiter) (now : ℚ)
    (hb : 0 ≤ rl.burst_size) (ht0 : 0 ≤ rl.tokens)
    (htb : rl.tokens ≤ rl.burst_size) (hr : 0 ≤ rl.max_events_per_second)
    (hnow : rl.last_refill ≤ now) :
    0 ≤ (rl.allow_event now).2.tokens ∧
    (rl.allow_event now).2.tokens ≤ (rl.allow_event now).2.burst_size ∧
    (rl.allow_event now).2.burst_size = rl.burst_size ∧
    (rl.allow_event now).2.max_events_per_second = rl.max_events_per_second ∧
    (rl.allow_event now).2.last_refill = now := by
  have hadd : 0 ≤ rl.tokens + (now - rl.last_refill) * rl.max_events_per_second := by
    have : 0 ≤ (now - rl.last_refill) * rl.max_events_per_second :=
      mul_nonneg (by linarith) hr
    linarith
  have hminnn : 0 ≤ min rl.burst_size
      (rl.tokens + (now - rl.last_refill) * rl.max_events_per_second) :=
    le_min hb hadd
  have hminle : min rl.burst_size
      (rl.tokens + (now - rl.last_refill) * rl.max_events_per_second) ≤
      rl.burst_size := min_le_left _ _
  simp only [allow_event]
  by_cases h : (1 : ℚ) ≤ min rl.burst_size
      (rl.tokens + (now - rl.last_refill) * rl.max_events_per_second)
  · rw [if_pos h]
    dsimp only
    exact ⟨by linarith, by linarith, rfl, rfl, rfl⟩
  · rw [if_neg h]
    dsimp only
    exact ⟨hminnn, hminle, rfl, rfl, rfl⟩

/-- The bounds `0 ≤ tokens ≤ burst_size` are preserved by any sequence of
calls at non-decreasing clock values. -/
theorem run_preserves_bounds :
    ∀ (ts : List ℚ) (rl : RateLimiter), 0 ≤ rl.burst_size →
    0 ≤ rl.tokens → rl.tokens ≤ rl.burst_size →
    0 ≤ rl.max_events_per_second →
    List.Chain' (· ≤ ·) (rl.last_refill :: ts) →
    0 ≤ (rl.run ts).tokens ∧ (rl.run ts).tokens ≤ (rl.run ts).burst_size ∧
    (rl.run ts).burst_size = rl.burst_size := by
  intro ts
  induction ts with
  | nil =>
    intro rl hb ht0 htb _ _
    exact ⟨ht0, htb, rfl⟩
  | cons t ts ih =>
    intro rl hb ht0 htb hr hchain
    have hle : rl.last_refill ≤ t := (List.chain'_cons.mp hchain).1
    have hstep := allow_event_preserves_bounds rl t hb ht0 htb hr hle
    obtain ⟨h1, h2, h3, h4, h5⟩ := hstep
    have hchain' : List.Chain' (· ≤ ·) ((rl.allow_event t).2.last_refill :: ts) := by
      rw [h5]
      exact (List.chain'_cons.mp hchain).2
    have := ih (rl.allow_event t).2 (h3 ▸ hb) h1 h2 (h4 ▸ hr) hchain'
    simpa [run, h3] using this

end RateLimiter

/-- C3: starting full with capacity `B ≥ 1` and rate `R > 0`, `B` rapid
publishes (zero elapsed time) all succeed, the `(B+1)`-th fails, and
after a further delay of `1/R` exactly one more succeeds (the next
rapid call fails again). -/
theorem rateLimiter_token_bucket_law (B : Nat) (R : ℚ)
    (hB : 1 ≤ B) (hR : 0 < R) :
    ((RateLimiter.init R B 0).fire 0 B).1 = List.replicate B true ∧
    (((RateLimiter.init R B 0).fire 0 B).2.allow_event 0).1 = false ∧
    ((((RateLimiter.init R B 0).fire 0 B).2.allow_event 0).2.allow_event
        (1 / R)).1 = true ∧
    (((((RateLimiter.init R B 0).fire 0 B).2.allow_event 0).2.allow_event
        (1 / R)).2.allow_event (1 / R)).1 = false := by
  have hBq : (0 : ℚ) ≤ (B : ℚ) := Nat.cast_nonneg B
  have hB1 : (1 : ℚ) ≤ (B : ℚ) := by exact_mod_cast hB
  have hfire := RateLimiter.fire_all_succeed B (RateLimiter.init R B 0)
    rfl le_rfl le_rfl
  have hstate : ((RateLimiter.init R B 0).fire 0 B).2 =
      { max_events_per_second := R, burst_size := B, tokens := 0,
        last_refill := 0 } := by
    rw [hfire]
    simp [RateLimiter.init]
  refine ⟨by rw [hfire], ?_⟩
  rw [hstate]
  have hfail : ({ max_events_per_second := R, burst_size := (B : ℚ),
                  tokens := 0, last_refill := 0 } : RateLimiter).allow_event 0 =
      (false, { max_events_per_second := R, burst_size := (B : ℚ),
                tokens := 0, last_refill := 0 }) := by
    simp only [RateLimiter.allow_event]
    rw [if_neg (by simp [min_eq_right hBq])]
    simp [min_eq_right hBq]
  rw [hfail]
  have hrefill : (1 / R - 0) * R = 1 := by
    field_simp
  have hsucc : ({ max_events_per_second := R, burst_size := (B : ℚ),
                  tokens := 0, last_refill := 0 } : RateLimiter).allow_event (1 / R) =
      (true, { max_events_per_second := R, burst_size := (B : ℚ),
               tokens := 0, last_refill := 1 / R }) := by
    simp only [RateLimiter.allow_event]
    rw [show (0 : ℚ) + (1 / R - 0) * R = 1 by rw [hrefill]; ring]
    rw [min_eq_right hB1, if_pos le_rfl]
    norm_num
  rw [hsucc]
  refine ⟨rfl, rfl, ?_⟩
  simp only [RateLimiter.allow_event]
  rw [if_neg (by simp [min_eq_right hBq])]

/-- Witness for C3 at `B = 2`, `R = 1`. -/
theorem rateLimiter_token_bucket_law_witness :
    ((RateLimiter.init 1 (2 : Nat) 0).fire 0 2).1 = List.replicate 2 true ∧
    (((RateLimiter.init 1 (2 : Nat) 0).fire 0 2).2.allow_event 0).1 = false ∧
    ((((RateLimiter.init 1 (2 : Nat) 0).fire 0 2).2.allow_event 0).2.allow_event
        (1 / 1)).1 = true ∧
    (((((RateLimiter.init 1 (2 : Nat) 0).fire 0 2).2.allow_event 0).2.allow_event
        (1 / 1)).2.allow_event (1 / 1)).1 = false :=
  rateLimiter_token_bucket_law 2 1 (by norm_num) (by norm_num)

/-- C10: for a rate limiter with burst size `B ≥ 1` and nonnegative rate,
after any sequence of `allow_event` calls at non-decreasing clock values
the token count satisfies `0 ≤ tokens ≤ B`. -/
theorem rateLimiter_tokens_bounded (B R t0 : ℚ) (ts : List ℚ)
    (hB : 1 ≤ B) (hR : 0 ≤ R)
    (hchain : List.Chain' (· ≤ ·) (t0 :: ts)) :
    0 ≤ ((RateLimiter.init R B t0).run ts).tokens ∧
    ((RateLimiter.init R B t0).run ts).tokens ≤ B := by
  have h := RateLimiter.run_preserves_bounds ts (RateLimiter.init R B t0)
    (show (0 : ℚ) ≤ B by linarith) (show (0 : ℚ) ≤ B by linarith)
    le_rfl hR (by simpa [RateLimiter.init] using hchain)
  obtain ⟨h1, h2, h3⟩ := h
  rw [h3] at h2
  exact ⟨h1, h2⟩

/-- Witness for C10 at `B = 2`, `R = 1`, clock values `0, 0, 1`. -/
theorem rateLimiter_tokens_bounded_witness :
    0 ≤ ((RateLimiter.init 1 2 0).run [0, 1]).tokens ∧
    ((RateLimiter.init 1 2 0).run [0, 1]).tokens ≤ 2 :=
  rateLimiter_tokens_bounded 2 1 0 [0, 1] (by norm_num) (by norm_num)
    (by simp [List.chain'_cons])

/-! ## Wire protocol (`UDSProtocol` in `pandemic_common/protocol.py`)

A byte stream is a `List Nat` (each entry `< 256` in practice).
`reader.readexactly(n)` returns the first `n` bytes and the remaining
stream, or fails (`IncompleteReadError`) when fewer are available. -/

/-- `asyncio.StreamReader.readexactly(n)`: first `n` bytes plus the rest
of the stream, or `none` when the stream is shorter than `n`. -/
def readexactly : Nat → List Nat → Option (List Nat × List Nat)
  | 0, s => some ([], s)
  | _ + 1, [] => none
  | n + 1, b :: s =>
    match readexactly n s with
    | some (bs, rest) => some (b :: bs, rest)
    | none => none

/-- `int.from_bytes(bs, "big")`. -/
def fromBytesBE (bs : List Nat) : Nat :=
  bs.foldl (fun acc b => acc * 256 + b) 0

/-- `n.to_bytes(4, "big")` for `n < 2^32`. -/
def toBytes4BE (n : Nat) : List Nat :=
  [n / 16777216 % 256, n / 65536 % 256, n / 256 % 256, n % 256]

/-- `UDSProtocol.receive_message` (protocol.py lines 20-29): read a
4-byte big-endian length, read exactly that many bytes, then decode
them with `json.loads(message_data.decode("utf-8"))`.  There is no
branch on the value of the length.  The stdlib decoder is the oracle
`loads` (as with the subprocess and download oracles elsewhere):
`loads body = some m` when decoding yields the message `m`, `none` when
`bytes.decode` or `json.loads` raises — that exception, like a short
read, propagates out of `receive_message`. -/
def receive_message {M : Type} (loads : List Nat → Option M)
    (s : List Nat) : Option (M × List Nat) :=
  match readexactly 4 s with
  | none => none
  | some (length_data, rest) =>
    match readexactly (fromBytesBE length_data) rest with
    | none => none
    | some (message_data, rest') =>
      match loads message_data with
      | some m => some (m, rest')
      | none => none

/-- Outcome of one iteration of `UnixDaemonServer._handle_client`
(daemon.py lines 144-171) on a single frame: either the decoded message
is processed and a response is sent, or the connection is dropped
without a response (the `except` branches — short read, bad UTF-8 or
bad JSON — close the writer without sending anything). -/
inductive ConnAction (M : Type) where
  | respond (message : M) (rest : List Nat)
  | dropConn
deriving Repr, DecidableEq

/-- One iteration of the `_handle_client` read loop: a successfully
framed and decoded message is processed and answered (`_process_message`
returns a response on every path, see `process_message` below); a
framing or decoding failure terminates the connection without a
response. -/
def handle_frame {M : Type} (loads : List Nat → Option M)
    (s : List Nat) : ConnAction M :=
  match receive_message loads s with
  | some (m, rest) => .respond m rest
  | none => .dropConn

theorem readexactly_append (xs ys : List Nat) :
    readexactly xs.length (xs ++ ys) = some (xs, ys) := by
  induction xs with
  | nil => rfl
  | cons x xs ih => simp [readexactly, ih]

theorem receive_message_eq {M : Type} (loads : List Nat → Option M)
    (s length_data rest body rest' : List Nat) (m : M)
    (h1 : readexactly 4 s = some (length_data, rest))
    (h2 : readexactly (fromBytesBE length_data) rest = some (body, rest'))
    (h3 : loads body = some m) :
    receive_message loads s = some (m, rest') := by
  unfold receive_message
  rw [h1]
  dsimp only
  rw [h2]
  dsimp only
  rw [h3]

theorem receive_message_decode_failure {M : Type}
    (loads : List Nat → Option M)
    (s length_data rest body rest' : List Nat)
    (h1 : readexactly 4 s = some (length_data, rest))
    (h2 : readexactly (fromBytesBE length_data) rest = some (body, rest'))
    (h3 : loads body = none) :
    receive_message loads s = none := by
  unfold receive_message
  rw [h1]
  dsimp only
  rw [h2]
  dsimp only
  rw [h3]

theorem handle_frame_respond {M : Type} (loads : List Nat → Option M)
    (s : List Nat) (m : M) (rest : List Nat)
    (h : receive_message loads s = some (m, rest)) :
    handle_frame loads s = .respond m rest := by
  unfold handle_frame
  rw [h]

/-- `json.loads ∘ bytes.decode` at the concrete bodies used below: the
two bytes `\x7b\x7d` (the empty JSON object, bytes `[123, 125]`)
followed by any run of spaces (byte 32) — the decoder skips trailing
whitespace — decode to the empty object, modelled as `Unit`.  Every
other body maps to `none`; the only such body used below is the lone
byte `\x7b` (a truncated JSON document), which `json.loads` likewise
rejects. -/
def loads_empty_object (bs : List Nat) : Option Unit :=
  match bs with
  | b1 :: b2 :: rest =>
    if b1 == 123 && b2 == 125 && rest.all (fun b => b == 32) then some ()
    else none
  | _ => none

theorem replicate_all_self (n b : Nat) :
    (List.replicate n b).all (fun x => x == b) = true := by
  induction n with
  | zero => rfl
  | succ n ih => simp [List.replicate_succ, List.all_cons, ih]

theorem loads_empty_object_pad (rest : List Nat)
    (h : rest.all (fun b => b == 32) = true) :
    loads_empty_object (123 :: 125 :: rest) = some () := by
  unfold loads_empty_object
  dsimp only
  rw [h]
  rfl

/-- Counterexample to C2: a frame whose declared length is
`1048577 = 1 MiB + 1` and whose body is the valid JSON document `{}`
padded with spaces is *not* dropped; `_handle_client` reads the whole
body, decodes it, and sends a response (`_process_message` answers the
empty message with a `"Command is required"` error response).
`receive_message` contains no size check. -/
theorem oversized_frame_processed_counterexample :
    1048576 < fromBytesBE [0, 16, 0, 1] ∧
    loads_empty_object ([123, 125] ++ List.replicate 1048575 32) =
      some () ∧
    handle_frame loads_empty_object
      ([0, 16, 0, 1] ++ ([123, 125] ++ List.replicate 1048575 32)) =
      .respond () [] := by
  have hdec : loads_empty_object
      ([123, 125] ++ List.replicate 1048575 32) = some () := by
    have hsplit : ([123, 125] ++ List.replicate 1048575 32 : List Nat) =
        123 :: 125 :: List.replicate 1048575 32 := rfl
    rw [hsplit]
    exact loads_empty_object_pad _ (replicate_all_self 1048575 32)
  refine ⟨by decide, hdec, ?_⟩
  have h4 : readexactly 4
      ([0, 16, 0, 1] ++ ([123, 125] ++ List.replicate 1048575 32)) =
      some ([0, 16, 0, 1], [123, 125] ++ List.replicate 1048575 32) :=
    readexactly_append [0, 16, 0, 1] _
  have hlen : ([123, 125] ++ List.replicate 1048575 32).length = 1048577 := by
    rw [List.length_append, List.length_replicate]
    rfl
  have hbody : readexactly (fromBytesBE [0, 16, 0, 1])
      ([123, 125] ++ List.replicate 1048575 32) =
      some ([123, 125] ++ List.replicate 1048575 32, []) := by
    have h := readexactly_append
      ([123, 125] ++ List.replicate 1048575 32) []
    rw [hlen, List.append_nil] at h
    have hval : fromBytesBE [0, 16, 0, 1] = 1048577 := by decide
    rw [hval]
    exact h
  exact handle_frame_respond _ _ _ _
    (receive_message_eq _ _ _ _ _ _ _ h4 hbody hdec)

/-- C2 (amended): the server imposes no size limit.  For a frame whose
declared length of bytes is available on the stream — of any size,
above or below 1 MiB — the outcome depends only on the decode step:
a body that decodes is processed and the response path is taken, and a
body that fails to decode drops the connection; the connection is thus
dropped without a response exactly when the stream ends before the
declared length or the body fails to decode, never because of size. -/
theorem handle_frame_no_size_limit {M : Type} (loads : List Nat → Option M)
    (n : Nat) (body rest : List Nat)
    (hn : n < 4294967296) (hlen : body.length = n) :
    (∀ m, loads body = some m →
      handle_frame loads (toBytes4BE n ++ (body ++ rest)) =
        .respond m rest) ∧
    (loads body = none →
      handle_frame loads (toBytes4BE n ++ (body ++ rest)) = .dropConn) := by
  have h4 : readexactly 4 (toBytes4BE n ++ (body ++ rest)) =
      some (toBytes4BE n, body ++ rest) :=
    readexactly_append (toBytes4BE n) (body ++ rest)
  have hval : fromBytesBE (toBytes4BE n) = n := by
    show (((0 * 256 + n / 16777216 % 256) * 256 + n / 65536 % 256) * 256 +
        n / 256 % 256) * 256 + n % 256 = n
    omega
  have hbody : readexactly (fromBytesBE (toBytes4BE n)) (body ++ rest) =
      some (body, rest) := by
    rw [hval, ← hlen]
    exact readexactly_append body rest
  constructor
  · intro m hm
    exact handle_frame_respond _ _ _ _
      (receive_message_eq _ _ _ _ _ _ _ h4 hbody hm)
  · intro hnone
    unfold handle_frame
    rw [receive_message_decode_failure _ _ _ _ _ _ h4 hbody hnone]

/-- Witness for the amended C2 at a small frame: the two-byte body `{}`
decodes and is answered; the one-byte body `\x7b` (a truncated JSON
document, which `json.loads` rejects) drops the connection. -/
theorem handle_frame_no_size_limit_witness :
    (handle_frame loads_empty_object (toBytes4BE 2 ++ ([123, 125] ++ [])) =
      .respond () []) ∧
    (handle_frame loads_empty_object (toBytes4BE 1 ++ ([123] ++ [])) =
      .dropConn) :=
  ⟨(handle_frame_no_size_limit loads_empty_object 2 [123, 125] []
      (by norm_num) rfl).1 () rfl,
    (handle_frame_no_size_limit loads_empty_object 1 [123] []
      (by norm_num) rfl).2 rfl⟩

/-! ## `UnixDaemonServer._process_message` and
`UDSProtocol.create_response` (daemon.py lines 173-200, protocol.py
lines 47-61)

The handler registry (`RouteRegistry`) is modelled as two lookup
functions; payloads and handler results are an abstract type `P`
(handlers in subclasses return dictionaries).  Python exceptions from a
validator or handler are `Except.error`. -/

/-- An incoming request message: `message.get("id")`,
`message.get("command")`, `message.get("payload", {})`. -/
structure Message (P : Type) where
  id : Option String
  command : Option String
  payload : Option P
deriving Repr, DecidableEq

/-- A response built by `UDSProtocol.create_response`
(timestamp omitted). -/
structure Response (P : Type) where
  id : String
  type : String
  status : String
  payload : Option P
  error : Option String
deriving Repr, DecidableEq

/-- `UDSProtocol.create_response`: `status` is `"error"` exactly when an
error string is given; `payload or {}` is modelled as `Option P` with
`none` for the empty dict. -/
def create_response {P : Type} (message_id : String) (payload : Option P)
    (error : Option String) : Response P :=
  { id := message_id, type := "response",
    status := if error.isSome then "error" else "success",
    payload := payload, error := error }

/-- `UnixDaemonServer._process_message`.  `fresh_uuid` is the value of
`str(uuid.uuid4())` used when the request has no `id`; `empty` is the
empty payload dict.  A `None` or empty command yields
`"Command is required"` (Python's `if not command`); an unregistered
command yields `"Unknown command: <name>"`; a validator or handler
exception is converted to an error response; otherwise the handler
result is returned as a success response. -/
def process_message {P : Type}
    (handlers : String → Option (P → Except String P))
    (validators : String → Option (P → Except String Unit))
    (fresh_uuid : String) (empty : P) (msg : Message P) : Response P :=
  let message_id := msg.id.getD fresh_uuid
  match msg.command with
  | none => create_response message_id none (some "Command is required")
  | some command =>
    if command = "" then
      create_response message_id none (some "Command is required")
    else
      match handlers command with
      | none =>
        create_response message_id none (some ("Unknown command: " ++ command))
      | some handler =>
        let payload := msg.payload.getD empty
        let result : Except String P :=
          match validators command with
          | some v =>
            match v payload with
            | .error e => .error e
            | .ok _ => handler payload
          | none => handler payload
        match result with
        | .ok r => create_response message_id (some r) none
        | .error e => create_response message_id none (some e)

/-- C9: a request without an `id` still gets exactly one well-formed
response: the response id is the freshly generated UUID, its type is
`"response"`, and its status is `"success"` or `"error"` consistently
with the presence of an error string — on every path, including unknown
commands and validator or handler errors. -/
theorem process_message_missing_id {P : Type}
    (handlers : String → Option (P → Except String P))
    (validators : String → Option (P → Except String Unit))
    (fresh_uuid : String) (empty : P) (msg : Message P)
    (hid : msg.id = none) :
    (process_message handlers validators fresh_uuid empty msg).id =
      fresh_uuid ∧
    (process_message handlers validators fresh_uuid empty msg).type =
      "response" ∧
    ((process_message handlers validators fresh_uuid empty msg).status =
        "success" ↔
      (process_message handlers validators fresh_uuid empty msg).error =
        none) := by
  have hgd : msg.id.getD fresh_uuid = fresh_uuid := by rw [hid]; rfl
  unfold process_message
  rw [hgd]
  cases msg.command with
  | none => simp [create_response]
  | some command =>
    by_cases hc : command = ""
    · simp [hc, create_response]
    · cases hh : handlers command with
      | none => simp [hc, hh, create_response]
      | some handler =>
        cases hv : validators command with
        | none =>
          cases hr : handler (msg.payload.getD empty) with
          | ok r => simp [hc, hh, hv, hr, create_response]
          | error e => simp [hc, hh, hv, hr, create_response]
        | some v =>
          cases hvp : v (msg.payload.getD empty) with
          | ok u =>
            cases hr : handler (msg.payload.getD empty) with
            | ok r => simp [hc, hh, hv, hvp, hr, create_response]
            | error e => simp [hc, hh, hv, hvp, hr, create_response]
          | error e => simp [hc, hh, hv, hvp, create_response]

/-- Witness for C9: an id-less request for an unknown command. -/
theorem process_message_missing_id_witness :
    (process_message (P := Unit) (fun _ => none) (fun _ => none) "uuid-1" ()
        { id := none, command := some "frobnicate", payload := none }).id =
      "uuid-1" ∧
    (process_message (P := Unit) (fun _ => none) (fun _ => none) "uuid-1" ()
        { id := none, command := some "frobnicate", payload := none }).type =
      "response" ∧
    ((process_message (P := Unit) (fun _ => none) (fun _ => none) "uuid-1" ()
        { id := none, command := some "frobnicate", payload := none }).status =
        "success" ↔
      (process_message (P := Unit) (fun _ => none) (fun _ => none) "uuid-1" ()
        { id := none, command := some "frobnicate", payload := none }).error =
        none) :=
  process_message_missing_id (fun _ => none) (fun _ => none) "uuid-1" ()
    { id := none, command := some "frobnicate", payload := none } rfl

/-! ## Glob pattern compiler (`EventClient._compile_pattern` in
`pandemic_common/events.py` lines 140-151)

The compiler is a chain of Python `str.replace` calls producing a regex
string, anchored with `^`/`$` and used with `re.match`.  `str.replace`
is modelled exactly (left-to-right, non-overlapping); the regular
expression fragment the compiler can emit (literals, `\.`-style escapes,
`[^.]`, `.`, postfix `*`, anchors) is given the semantics of Python
`re`: `.` matches any character except a newline, `[^.]` any character
except a dot. -/

/-- Scanner for `str.replace`, structurally recursive on a fuel bound:
each step either replaces a non-overlapping occurrence of `old`
(consuming `old.length ≥ 1` characters) or copies one character, so a
fuel of the string length is enough. -/
def pyReplaceAux (old new : List Char) : Nat → List Char → List Char
  | 0, s => s
  | _ + 1, [] => []
  | fuel + 1, c :: rest =>
    if old ≠ [] ∧ old.isPrefixOf (c :: rest) then
      new ++ pyReplaceAux old new fuel (rest.drop (old.length - 1))
    else
      c :: pyReplaceAux old new fuel rest

/-- Python `s.replace(old, new)` for a nonempty `old`: scan left to
right, replacing non-overlapping occurrences.  (`old = []` is never used
by the compiler and is treated as no occurrences.) -/
def pyReplace (old new s : List Char) : List Char :=
  pyReplaceAux old new s.length s

/-- `EventClient._compile_pattern`: escape dots, protect `**` behind the
sentinel `DOUBLE_STAR`, turn `*` into `[^.]*`, turn the sentinel into
`.*`, and anchor with `^`/`$`. -/
def compile_pattern (pattern : List Char) : List Char :=
  let regex1 := pyReplace ['.'] ['\\', '.'] pattern
  let regex2 := pyReplace ['*', '*'] "DOUBLE_STAR".toList regex1
  let regex3 := pyReplace ['*'] "[^.]*".toList regex2
  let regex4 := pyReplace "DOUBLE_STAR".toList ".*".toList regex3
  '^' :: (regex4 ++ ['$'])

/-- An atom of the emitted regex fragment: a literal character
(possibly `\`-escaped), the class `[^.]`, or `.`. -/
inductive RAtom where
  | lit (c : Char)
  | nonDot
  | anyChar
deriving Repr, DecidableEq

/-- An atom, optionally under a postfix `*`. -/
inductive RPiece where
  | once (a : RAtom)
  | star (a : RAtom)
deriving Repr, DecidableEq

/-- Parse the body of an emitted regex (between the anchors) into
pieces.  Plain literals are restricted to characters without regex
meaning; the compiler's output for dotted-name patterns only contains
such literals, `\`-escapes, `[^.]` and `.`. -/
def parseBody : List Char → Option (List RPiece)
  | [] => some []
  | '\\' :: c :: '*' :: rest => (parseBody rest).map (.star (.lit c) :: ·)
  | '\\' :: c :: rest => (parseBody rest).map (.once (.lit c) :: ·)
  | '[' :: '^' :: '.' :: ']' :: '*' :: rest =>
    (parseBody rest).map (.star .nonDot :: ·)
  | '[' :: '^' :: '.' :: ']' :: rest =>
    (parseBody rest).map (.once .nonDot :: ·)
  | '.' :: '*' :: rest => (parseBody rest).map (.star .anyChar :: ·)
  | '.' :: rest => (parseBody rest).map (.once .anyChar :: ·)
  | c :: '*' :: rest =>
    if c.isAlphanum || c == '_' || c == '-' then
      (parseBody rest).map (.star (.lit c) :: ·)
    else none
  | c :: rest =>
    if c.isAlphanum || c == '_' || c == '-' then
      (parseBody rest).map (.once (.lit c) :: ·)
    else none

/-- Whether a regex atom matches one character (Python `re` semantics:
`.` matches anything but a newline, `[^.]` anything but a dot). -/
def atomMatches : RAtom → Char → Bool
  | .lit c, x => x == c
  | .nonDot, x => x != '.'
  | .anyChar, x => x != '\n'

/-- Matching loop for a starred atom `a*`: either hand the remaining
string to the continuation `k` (the rest of the regex), or consume one
character matched by `a` and loop. -/
def starLoop (k : List Char → Bool) (a : RAtom) : List Char → Bool
  | [] => k []
  | c :: s => k (c :: s) || (atomMatches a c && starLoop k a s)

/-- Backtracking matcher for a parsed regex against a whole string
(the emitted regexes are `^`/`$`-anchored, so a `re.match` hit is a
full-string match; strings here contain no trailing newline). -/
def rmatch : List RPiece → List Char → Bool
  | [], s => s.isEmpty
  | .once a :: ps, [] => false
  | .once a :: ps, c :: s => atomMatches a c && rmatch ps s
  | .star a :: ps, s => starLoop (rmatch ps) a s

/-- The subscription check of `EventClient._subscription_loop`:
`pattern_regex.match(event.type)` with the compiled, anchored regex. -/
def glob_matches (pattern s : String) : Bool :=
  match compile_pattern pattern.toList with
  | '^' :: rest =>
    if rest.getLast? = some '$' then
      match parseBody rest.dropLast with
      | some ps => rmatch ps s.toList
      | none => false
    else false
  | _ => false

theorem rmatch_star_singleton (a : RAtom) :
    ∀ s : List Char, rmatch [.star a] s = true ↔
      ∀ c ∈ s, atomMatches a c = true := by
  intro s
  induction s with
  | nil => simp [rmatch, starLoop]
  | cons c s ih =>
    simp only [rmatch, starLoop, List.isEmpty] at ih ⊢
    simp only [List.mem_cons]
    constructor
    · intro h
      rcases Bool.or_eq_true_iff.mp h with h | h
      · cases h
      · rcases Bool.and_eq_true_iff.mp h with ⟨h1, h2⟩
        intro x hx
        rcases hx with rfl | hx
        · exact h1
        · exact ih.mp h2 x hx
    · intro h
      refine Bool.or_eq_true_iff.mpr (Or.inr (Bool.and_eq_true_iff.mpr ?_))
      exact ⟨h c (Or.inl rfl), ih.mpr (fun x hx => h x (Or.inr hx))⟩

/-- C7: the compiled pattern `*` matches exactly the runs of characters
without a dot, `**` matches any run (of ordinary, non-newline
characters), and literal dots match only themselves; in particular `*`
matches `"a"` and `"abc"` but not `"a.b"`, `**` matches `"a.b.c"`, and
`foo.*` matches `"foo.bar"` but neither `"foo"` nor `"foo.bar.baz"`. -/
theorem glob_compiler_semantics :
    (∀ s : String, glob_matches "*" s = true ↔ ∀ c ∈ s.toList, c ≠ '.') ∧
    (∀ s : String, (∀ c ∈ s.toList, c ≠ '\n') →
      glob_matches "**" s = true) ∧
    glob_matches "*" "a" = true ∧
    glob_matches "*" "abc" = true ∧
    glob_matches "*" "a.b" = false ∧
    glob_matches "**" "a.b.c" = true ∧
    glob_matches "foo.*" "foo.bar" = true ∧
    glob_matches "foo.*" "foo" = false ∧
    glob_matches "foo.*" "foo.bar.baz" = false := by
  refine ⟨?_, ?_, by decide, by decide, by decide, by decide, by decide,
    by decide, by decide⟩
  · intro s
    have h : glob_matches "*" s = rmatch [.star .nonDot] s.toList := rfl
    rw [h, rmatch_star_singleton]
    simp [atomMatches]
  · intro s hs
    have h : glob_matches "**" s = rmatch [.star .anyChar] s.toList := rfl
    rw [h, rmatch_star_singleton]
    intro c hc
    simpa [atomMatches] using hs c hc

/-- Witness for C7's quantified parts at concrete strings. -/
theorem glob_compiler_semantics_witness :
    glob_matches "*" "ab" = true ∧ glob_matches "**" "a.b" = true :=
  ⟨(glob_compiler_semantics.1 "ab").mpr (by decide),
    glob_compiler_semantics.2.1 "a.b" (by decide)⟩

/-! ## State store (`StateManager` in `pandemic_core/state.py`)

The `_infections` dict is an association list with unique keys; `data`
is a workload record.  Free-form metadata fields of the record
(`environment`, `resources`, `downloadInfo`, `configInfo`) are omitted
— no claim depends on them.  Disk I/O is modelled by a `disk_ok` flag
for whether the JSON write succeeds, and a `disk` component holding the
content of the last successfully written state file. -/

/-- A workload record as built by `MessageHandler._handle_install`. -/
structure Infection where
  infectionId : String
  source : String
  state : String
  name : String
  serviceName : Option String
  installationPath : Option String
  error : Option String
deriving Repr, DecidableEq

/-- `self._infections[key] = value` on a Python dict: replace the
binding if the key exists, else append it. -/
def dictSet (k : String) (v : Infection) :
    List (String × Infection) → List (String × Infection)
  | [] => [(k, v)]
  | (k', v') :: rest =>
    if k' = k then (k, v) :: rest else (k', v') :: dictSet k v rest

/-- `del self._infections[key]` on a Python dict.  Keys are unique in a
dict, so deleting the one binding equals dropping every binding of the
key. -/
def dictDel (k : String) (l : List (String × Infection)) :
    List (String × Infection) :=
  l.filter (fun p => p.1 != k)

/-- In-memory map plus the content of the last successfully written
state file. -/
structure StateManagerS where
  infections : List (String × Infection)
  disk : Option (List (String × Infection))
deriving Repr, DecidableEq

/-- `StateManager._save_state`: the whole body is wrapped in
`try/except Exception` that only logs, so a failed write (`disk_ok =
false`) leaves the file as it was and the method still returns
normally. -/
def save_state (disk_ok : Bool) (m : StateManagerS) : StateManagerS :=
  if disk_ok then { m with disk := some m.infections } else m

/-- `StateManager.add_infection`: mutate the dict, then `_save_state`. -/
def add_infection (disk_ok : Bool) (m : StateManagerS) (infection_id : String)
    (infection_data : Infection) : StateManagerS :=
  save_state disk_ok
    { m with infections := dictSet infection_id infection_data m.infections }

/-- `StateManager.remove_infection`: delete and save if present,
returning whether a record was removed. -/
def remove_infection (disk_ok : Bool) (m : StateManagerS)
    (infection_id : String) : Bool × StateManagerS :=
  match m.infections.lookup infection_id with
  | some _ =>
    (true, save_state disk_ok
      { m with infections := dictDel infection_id m.infections })
  | none => (false, m)

/-- `StateManager.update_infection_state`: set the `state` field and
save if the record exists. -/
def update_infection_state (disk_ok : Bool) (m : StateManagerS)
    (infection_id new_state : String) : StateManagerS :=
  match m.infections.lookup infection_id with
  | some rec =>
    save_state disk_ok
      { m with infections :=
          dictSet infection_id { rec with state := new_state } m.infections }
  | none => m

/-- C8: every state-store mutation updates the in-memory map and
returns normally whether or not the state-file write succeeds, and its
in-memory result and return value are identical in both cases — the
caller cannot distinguish a persisted mutation from one that only took
effect in memory. -/
theorem state_mutations_swallow_save_errors (disk_ok : Bool)
    (m : StateManagerS) (infection_id new_state : String)
    (infection_data : Infection) :
    (add_infection disk_ok m infection_id infection_data).infections =
      dictSet infection_id infection_data m.infections ∧
    (add_infection disk_ok m infection_id infection_data).infections =
      (add_infection true m infection_id infection_data).infections ∧
    (remove_infection disk_ok m infection_id).1 =
      (remove_infection true m infection_id).1 ∧
    (remove_infection disk_ok m infection_id).2.infections =
      (remove_infection true m infection_id).2.infections ∧
    (update_infection_state disk_ok m infection_id new_state).infections =
      (update_infection_state true m infection_id new_state).infections := by
  refine ⟨?_, ?_, ?_, ?_, ?_⟩ <;>
    cases disk_ok <;>
    simp [add_infection, remove_infection, update_infection_state,
      save_state] <;>
    cases m.infections.lookup infection_id <;>
    simp

theorem lookup_dictDel (k : String) (l : List (String × Infection)) :
    (dictDel k l).lookup k = none := by
  induction l with
  | nil => rfl
  | cons p rest ih =>
    rcases p with ⟨k', v⟩
    by_cases h : k' = k
    · simpa [dictDel, List.filter_cons, h] using ih
    · have hbne : (k' != k) = true := bne_iff_ne.mpr h
      have hbeq : (k == k') = false := by
        simp [beq_eq_false_iff_ne]
        exact fun he => h he.symm
      simp only [dictDel, List.filter_cons, hbne, if_true]
      simpa [List.lookup, hbeq, dictDel] using ih

theorem lookup_dictSet (k : String) (v : Infection) :
    ∀ l : List (String × Infection), (dictSet k v l).lookup k = some v := by
  intro l
  induction l with
  | nil => simp [dictSet, List.lookup]
  | cons p rest ih =>
    rcases p with ⟨k', v'⟩
    by_cases h : k' = k
    · simp [dictSet, h, List.lookup]
    · have hbeq : (k == k') = false := by
        simp [beq_eq_false_iff_ne]
        exact fun he => h he.symm
      simp [dictSet, h, List.lookup, hbeq, ih]

/-! ## Remove handler (`MessageHandler._handle_remove` in
`pandemic_core/handlers.py` lines 268-307)

`remove_service` is the systemd-manager call (an oracle for the
subprocess outcome).  The event-socket removal, subscription-map
cleanup and `infection.removed` event publication have no failure modes
relevant to the claims and do not touch the store; they are omitted
here.  The `cleanup` branch of the source only records the path
(a TODO in the code), modelled by `removed_files`. -/

/-- `MessageHandler._handle_remove`: resolve the id, remove the systemd
service when one is recorded, compute `removedFiles`/`removedServices`,
and drop the record from the store.  An exception is `Except.error`. -/
def handle_remove (remove_service : String → Except String Unit)
    (infections_dir : String) (disk_ok : Bool) (m : StateManagerS)
    (infection_id : Option String) (cleanup : Bool) :
    Except String (List String × List String) × StateManagerS :=
  match infection_id with
  | none => (.error "infectionId is required", m)
  | some iid =>
    if iid = "" then (.error "infectionId is required", m)
    else
      match m.infections.lookup iid with
      | none => (.error ("Infection not found: " ++ iid), m)
      | some infection =>
        let svc : Except String (List String) :=
          match infection.serviceName with
          | some sn =>
            match remove_service sn with
            | .ok _ => .ok [sn]
            | .error e => .error e
          | none => .ok []
        match svc with
        | .error e => (.error e, m)
        | .ok removed_services =>
          let removed_files :=
            if cleanup then [infections_dir ++ "/" ++ infection.name] else []
          (.ok (removed_files, removed_services),
            (remove_infection disk_ok m iid).2)

/-- `MessageHandler.handle_message` restricted to the `remove` command:
a handler exception becomes an error response, a result a success
response (handlers.py lines 26-72). -/
def handle_remove_message (remove_service : String → Except String Unit)
    (infections_dir : String) (disk_ok : Bool) (message_id : String)
    (m : StateManagerS) (infection_id : Option String) (cleanup : Bool) :
    Response (List String × List String) × StateManagerS :=
  match handle_remove remove_service infections_dir disk_ok m infection_id
      cleanup with
  | (.ok v, m') => (create_response message_id (some v) none, m')
  | (.error e, m') => (create_response message_id none (some e), m')

/-- C6: for a workload id present in the store, `remove` twice in
succession: the first call returns a success response and deletes the
record; the second returns a not-found error response and leaves the
store unchanged; both calls return a response (no crash). -/
theorem remove_twice_idempotent
    (remove_service : String → Except String Unit)
    (infections_dir : String) (disk_ok cleanup : Bool)
    (m : StateManagerS) (iid : String) (infection : Infection)
    (hiid : iid ≠ "")
    (hmem : m.infections.lookup iid = some infection)
    (hsvc : ∀ sn, infection.serviceName = some sn →
      remove_service sn = .ok ()) :
    ((handle_remove_message remove_service infections_dir disk_ok "m1" m
        (some iid) cleanup).1.status = "success") ∧
    ((handle_remove_message remove_service infections_dir disk_ok "m1" m
        (some iid) cleanup).2.infections.lookup iid = none) ∧
    ((handle_remove_message remove_service infections_dir disk_ok "m2"
        (handle_remove_message remove_service infections_dir disk_ok "m1" m
          (some iid) cleanup).2
        (some iid) cleanup).1.status = "error") ∧
    ((handle_remove_message remove_service infections_dir disk_ok "m2"
        (handle_remove_message remove_service infections_dir disk_ok "m1" m
          (some iid) cleanup).2
        (some iid) cleanup).1.error =
      some ("Infection not found: " ++ iid)) ∧
    ((handle_remove_message remove_service infections_dir disk_ok "m2"
        (handle_remove_message remove_service infections_dir disk_ok "m1" m
          (some iid) cleanup).2
        (some iid) cleanup).2 =
      (handle_remove_message remove_service infections_dir disk_ok "m1" m
        (some iid) cleanup).2) := by
  have hsvcstep : (match infection.serviceName with
      | some sn =>
        match remove_service sn with
        | .ok _ => Except.ok [sn]
        | .error e => Except.error e
      | none => Except.ok ([] : List String)) =
      .ok (match infection.serviceName with
           | some sn => [sn]
           | none => []) := by
    cases hsn : infection.serviceName with
    | none => rfl
    | some sn =>
      show (match remove_service sn with
            | Except.ok _ => Except.ok [sn]
            | Except.error e => Except.error e) = Except.ok [sn]
      rw [hsvc sn hsn]
  have hfirst : handle_remove remove_service infections_dir disk_ok m
      (some iid) cleanup =
      (.ok ((if cleanup then [infections_dir ++ "/" ++ infection.name]
             else []),
        (match infection.serviceName with
         | some sn => [sn]
         | none => [])),
        (remove_infection disk_ok m iid).2) := by
    unfold handle_remove
    dsimp only
    rw [if_neg hiid, hmem]
    dsimp only
    rw [hsvcstep]
  have hstate : (remove_infection disk_ok m iid).2.infections =
      dictDel iid m.infections := by
    unfold remove_infection
    rw [hmem]
    cases disk_ok <;> simp [save_state]
  have hgone : (remove_infection disk_ok m iid).2.infections.lookup iid =
      none := by
    rw [hstate]
    exact lookup_dictDel iid m.infections
  have hmsg1 : handle_remove_message remove_service infections_dir disk_ok
      "m1" m (some iid) cleanup =
      (create_response "m1"
        (some ((if cleanup then [infections_dir ++ "/" ++ infection.name]
                else []),
          (match infection.serviceName with
           | some sn => [sn]
           | none => []))) none,
        (remove_infection disk_ok m iid).2) := by
    unfold handle_remove_message
    rw [hfirst]
  have hsecond : handle_remove remove_service infections_dir disk_ok
      (remove_infection disk_ok m iid).2 (some iid) cleanup =
      (.error ("Infection not found: " ++ iid),
        (remove_infection disk_ok m iid).2) := by
    unfold handle_remove
    dsimp only
    rw [if_neg hiid, hgone]
  have hmsg2 : handle_remove_message remove_service infections_dir disk_ok
      "m2" (remove_infection disk_ok m iid).2 (some iid) cleanup =
      (create_response "m2" none (some ("Infection not found: " ++ iid)),
        (remove_infection disk_ok m iid).2) := by
    unfold handle_remove_message
    rw [hsecond]
  rw [hmsg1]
  refine ⟨rfl, hgone, ?_, ?_, ?_⟩ <;> rw [hmsg2] <;> rfl

/-- Witness for C6 at a one-record store. -/
theorem remove_twice_idempotent_witness :
    ((handle_remove_message (fun _ => .ok ()) "/opt/pandemic/infections"
        true "m1"
        { infections := [("infection-ab12cd34",
            { infectionId := "infection-ab12cd34", source := "src",
              state := "installed", name := "w",
              serviceName := some "pandemic-infection@w.service",
              installationPath := none, error := none })],
          disk := none }
        (some "infection-ab12cd34") true).1.status = "success") ∧
    ((handle_remove_message (fun _ => .ok ()) "/opt/pandemic/infections"
        true "m2"
        (handle_remove_message (fun _ => .ok ()) "/opt/pandemic/infections"
          true "m1"
          { infections := [("infection-ab12cd34",
              { infectionId := "infection-ab12cd34", source := "src",
                state := "installed", name := "w",
                serviceName := some "pandemic-infection@w.service",
                installationPath := none, error := none })],
            disk := none }
          (some "infection-ab12cd34") true).2
        (some "infection-ab12cd34") true).1.error =
      some ("Infection not found: " ++ "infection-ab12cd34")) := by
  have h := remove_twice_idempotent (fun _ => .ok ())
    "/opt/pandemic/infections" true true
    { infections := [("infection-ab12cd34",
        { infectionId := "infection-ab12cd34", source := "src",
          state := "installed", name := "w",
          serviceName := some "pandemic-infection@w.service",
          installationPath := none, error := none })],
      disk := none }
    "infection-ab12cd34"
    { infectionId := "infection-ab12cd34", source := "src",
      state := "installed", name := "w",
      serviceName := some "pandemic-infection@w.service",
      installationPath := none, error := none }
    (by decide) (by decide) (fun _ _ => rfl)
  exact ⟨h.1, h.2.2.2.1⟩

/-! ## Install handler (`MessageHandler._handle_install` in
`pandemic_core/handlers.py` lines 194-266)

`install_from_source` and `create_service` are oracles for the two
fallible pipeline steps (the download/extract pipeline returning an
installation path, and the systemd-service creation returning the
service name).  The final persist (`add_infection`) cannot raise
(`_save_state` swallows exceptions, see the state-store section).
Event-socket creation and event publication are modelled as the emitted
event-type list. -/

theorem add_infection_infections (disk_ok : Bool) (m : StateManagerS)
    (infection_id : String) (infection_data : Infection) :
    (add_infection disk_ok m infection_id infection_data).infections =
      dictSet infection_id infection_data m.infections := by
  cases disk_ok <;> simp [add_infection, save_state]

/-- `MessageHandler._handle_install`: persist an `installing` record and
emit `infection.installing`; then run the installer and the service
creation inside `try`; on success persist the `installed` record and
emit `infection.installed`; on any exception persist the record with
`state = "failed"` and the error message, emit `infection.failed`, and
re-raise.  Returns (handler result, final store, emitted event types). -/
def handle_install (install_from_source : Except String String)
    (create_service : Except String String) (disk_ok : Bool)
    (m : StateManagerS) (infection_id : String) (source : Option String)
    (name : String) :
    Except String (String × String × String) × StateManagerS × List String :=
  match source with
  | none => (.error "Source is required for installation", m, [])
  | some src =>
    if src = "" then (.error "Source is required for installation", m, [])
    else
      let infection : Infection :=
        { infectionId := infection_id, source := src, state := "installing",
          name := name, serviceName := none, installationPath := none,
          error := none }
      let m1 := add_infection disk_ok m infection_id infection
      match install_from_source with
      | .error e =>
        (.error e,
          add_infection disk_ok m1 infection_id
            { infection with state := "failed", error := some e },
          ["infection.installing", "infection.failed"])
      | .ok path =>
        let infection2 := { infection with installationPath := some path }
        match create_service with
        | .error e =>
          (.error e,
            add_infection disk_ok m1 infection_id
              { infection2 with state := "failed", error := some e },
            ["infection.installing", "infection.failed"])
        | .ok service_name =>
          (.ok (infection_id, service_name, path),
            add_infection disk_ok m1 infection_id
              { infection2 with serviceName := some service_name,
                                state := "installed" },
            ["infection.installing", "infection.installed"])

/-- `MessageHandler.handle_message` restricted to `install`: a handler
exception becomes an error response with the exception text. -/
def handle_install_message (install_from_source : Except String String)
    (create_service : Except String String) (disk_ok : Bool)
    (message_id : String) (m : StateManagerS) (infection_id : String)
    (source : Option String) (name : String) :
    Response (String × String × String) × StateManagerS × List String :=
  match handle_install install_from_source create_service disk_ok m
      infection_id source name with
  | (.ok v, m', evs) => (create_response message_id (some v) none, m', evs)
  | (.error e, m', evs) =>
    (create_response message_id none (some e), m', evs)

/-- C4: if the source download or the service creation fails after the
initial record is persisted (the final persist itself cannot fail — the
store swallows write errors), the stored record for the generated id
ends in the `failed` state with its `error` field set to the failure
message, an `infection.failed` event is emitted, and the original error
is surfaced as an error response. -/
theorem install_failure_leaves_failed_record
    (install_from_source create_service : Except String String)
    (disk_ok : Bool) (m : StateManagerS) (infection_id src name : String)
    (e : String) (hsrc : src ≠ "")
    (hfail : install_from_source = .error e ∨
      (∃ p, install_from_source = .ok p ∧ create_service = .error e)) :
    ((handle_install_message install_from_source create_service disk_ok
        "mid" m infection_id (some src) name).1.status = "error") ∧
    ((handle_install_message install_from_source create_service disk_ok
        "mid" m infection_id (some src) name).1.error = some e) ∧
    (∃ rec,
      (handle_install_message install_from_source create_service disk_ok
        "mid" m infection_id (some src) name).2.1.infections.lookup
          infection_id = some rec ∧
      rec.state = "failed" ∧ rec.error = some e) ∧
    ("infection.failed" ∈
      (handle_install_message install_from_source create_service disk_ok
        "mid" m infection_id (some src) name).2.2) := by
  rcases hfail with hinst | ⟨p, hinst, hsvc⟩
  · have hinstall : handle_install install_from_source create_service
        disk_ok m infection_id (some src) name =
        (.error e,
          add_infection disk_ok
            (add_infection disk_ok m infection_id
              { infectionId := infection_id, source := src,
                state := "installing", name := name, serviceName := none,
                installationPath := none, error := none })
            infection_id
            { infectionId := infection_id, source := src,
              state := "failed", name := name, serviceName := none,
              installationPath := none, error := some e },
          ["infection.installing", "infection.failed"]) := by
      unfold handle_install
      dsimp only
      rw [if_neg hsrc, hinst]
    have hmsg : handle_install_message install_from_source create_service
        disk_ok "mid" m infection_id (some src) name =
        (create_response "mid" none (some e),
          add_infection disk_ok
            (add_infection disk_ok m infection_id
              { infectionId := infection_id, source := src,
                state := "installing", name := name, serviceName := none,
                installationPath := none, error := none })
            infection_id
            { infectionId := infection_id, source := src,
              state := "failed", name := name, serviceName := none,
              installationPath := none, error := some e },
          ["infection.installing", "infection.failed"]) := by
      unfold handle_install_message
      rw [hinstall]
    rw [hmsg]
    refine ⟨rfl, rfl, ?_, by simp⟩
    refine ⟨{ infectionId := infection_id, source := src, state := "failed",
              name := name, serviceName := none, installationPath := none,
              error := some e }, ?_, rfl, rfl⟩
    rw [add_infection_infections]
    exact lookup_dictSet infection_id _ _
  · have hinstall : handle_install install_from_source create_service
        disk_ok m infection_id (some src) name =
        (.error e,
          add_infection disk_ok
            (add_infection disk_ok m infection_id
              { infectionId := infection_id, source := src,
                state := "installing", name := name, serviceName := none,
                installationPath := none, error := none })
            infection_id
            { infectionId := infection_id, source := src,
              state := "failed", name := name, serviceName := none,
              installationPath := some p, error := some e },
          ["infection.installing", "infection.failed"]) := by
      unfold handle_install
      dsimp only
      rw [if_neg hsrc, hinst]
      dsimp only
      rw [hsvc]
    have hmsg : handle_install_message install_from_source create_service
        disk_ok "mid" m infection_id (some src) name =
        (create_response "mid" none (some e),
          add_infection disk_ok
            (add_infection disk_ok m infection_id
              { infectionId := infection_id, source := src,
                state := "installing", name := name, serviceName := none,
                installationPath := none, error := none })
            infection_id
            { infectionId := infection_id, source := src,
              state := "failed", name := name, serviceName := none,
              installationPath := some p, error := some e },
          ["infection.installing", "infection.failed"]) := by
      unfold handle_install_message
      rw [hinstall]
    rw [hmsg]
    refine ⟨rfl, rfl, ?_, by simp⟩
    refine ⟨{ infectionId := infection_id, source := src, state := "failed",
              name := name, serviceName := none,
              installationPath := some p, error := some e }, ?_, rfl, rfl⟩
    rw [add_infection_infections]
    exact lookup_dictSet infection_id _ _

/-- Witness for C4: a failing download on an empty store. -/
theorem install_failure_leaves_failed_record_witness :
    ((handle_install_message (.error "download failed") (.ok "svc") true
        "mid" { infections := [], disk := none } "infection-11aa22bb"
        (some "repo://acme/worker") "worker").1.status = "error") ∧
    ((handle_install_message (.error "download failed") (.ok "svc") true
        "mid" { infections := [], disk := none } "infection-11aa22bb"
        (some "repo://acme/worker") "worker").1.error =
      some "download failed") := by
  have h := install_failure_leaves_failed_record (.error "download failed")
    (.ok "svc") true { infections := [], disk := none } "infection-11aa22bb"
    "repo://acme/worker" "worker" "download failed" (by decide)
    (Or.inl rfl)
  exact ⟨h.1, h.2.1⟩

/-! ## Source allowlist (`SourceManager.install_from_source` and
`_validate_source_security` in `pandemic_core/sources.py` lines 246-274
and 283-293)

`download` is the oracle for `handler.download` (target-directory
preparation and manifest loading have no bearing on the claim);
the second component of the result records whether the fetcher ran. -/

/-- Python `url.startswith(pre)`. -/
def startswith (url pre : String) : Bool :=
  pre.toList.isPrefixOf url.toList

/-- `SourceManager._validate_source_security`: no restriction when the
allowlist is empty; otherwise the URL must start with one entry. -/
def validate_source_security (allowed_sources : List String)
    (source_url : String) : Except String Unit :=
  if allowed_sources.isEmpty then .ok ()
  else if allowed_sources.any (fun allowed => startswith source_url allowed)
    then .ok ()
  else .error ("Source not allowed: " ++ source_url)

/-- `SourceManager.install_from_source`, security-relevant prefix:
find a handler, then run `_validate_source_security` — but only when
`config.validate_signatures` is set — and only then download. -/
def install_from_source (has_handler : Bool) (validate_signatures : Bool)
    (allowed_sources : List String) (download : Except String String)
    (source_url : String) : Except String String × Bool :=
  if ¬ has_handler then
    (.error ("No handler available for source: " ++ source_url), false)
  else if validate_signatures then
    match validate_source_security allowed_sources source_url with
    | .error e => (.error e, false)
    | .ok _ => (download, true)
  else (download, true)

/-- Counterexample to C5: with `validate_signatures = False` a
configured, non-empty allowlist is ignored — the fetch proceeds for a
URL matching no allowlist entry. -/
theorem allowlist_bypass_counterexample :
    (["https://trusted.example/"] : List String) ≠ [] ∧
    (["https://trusted.example/"].any
      (fun allowed => startswith "https://evil.example/payload" allowed))
      = false ∧
    install_from_source true false ["https://trusted.example/"]
      (.ok "downloaded") "https://evil.example/payload" =
      (.ok "downloaded", true) := by
  refine ⟨by decide, by decide, rfl⟩

/-- C5 (amended): when `validate_signatures` is enabled (its default)
and the allowlist is non-empty, an install whose URL starts with no
allowlist entry is rejected with an error and no fetch is performed;
a URL sharing a prefix with an entry proceeds to the fetcher. -/
theorem source_allowlist_enforced (allowed_sources : List String)
    (download : Except String String) (source_url : String)
    (hne : allowed_sources ≠ []) :
    ((allowed_sources.any (fun allowed => startswith source_url allowed))
        = false →
      install_from_source true true allowed_sources download source_url =
        (.error ("Source not allowed: " ++ source_url), false)) ∧
    ((allowed_sources.any (fun allowed => startswith source_url allowed))
        = true →
      install_from_source true true allowed_sources download source_url =
        (download, true)) := by
  have hemp : allowed_sources.isEmpty = false := by
    cases allowed_sources with
    | nil => exact absurd rfl hne
    | cons a l => rfl
  constructor
  · intro hno
    simp [install_from_source, validate_source_security, hemp, hno]
  · intro hyes
    simp [install_from_source, validate_source_security, hemp, hyes]

/-- Witness for C5's amended statement. -/
theorem source_allowlist_enforced_witness :
    install_from_source true true ["https://trusted.example/"]
      (.ok "downloaded") "https://evil.example/payload" =
      (.error ("Source not allowed: " ++ "https://evil.example/payload"),
        false) :=
  (source_allowlist_enforced ["https://trusted.example/"] (.ok "downloaded")
    "https://evil.example/payload" (by decide)).1 (by decide)

/-! ## Privileged helper (`RequestValidator` in
`pandemic_systemd_helper/validator.py` and `HelperDaemon` in
`pandemic_systemd_helper/daemon.py`)

The validator is translated in full.  The daemon's routes are modelled
by the list of privileged effects (file writes, `systemctl`/`journalctl`
invocations) each handler performs before returning; the outcomes of the
subprocesses themselves are irrelevant to the validation claim.
`ALLOWED_SERVICE_PATTERN` (`^pandemic-infection@[a-zA-Z0-9_-]+\.service$`)
is expressed directly: the string is the literal prefix, then one or
more characters of the class, then the literal suffix — the class
excludes the dot, so the decomposition is unique. -/

/-- A character of the class `[a-zA-Z0-9_-]`. -/
def isServiceNameChar (c : Char) : Bool :=
  c.isAlpha || c.isDigit || c == '_' || c == '-'

/-- `RequestValidator.ALLOWED_SERVICE_PATTERN.match(s)`. -/
def service_name_matches (s : String) : Bool :=
  let cs := s.toList
  let pre := "pandemic-infection@".toList
  let suf := ".service".toList
  pre.isPrefixOf cs &&
    (let rest := cs.drop pre.length
     suf.isSuffixOf rest &&
       (let mid := rest.take (rest.length - suf.length)
        !mid.isEmpty && mid.all isServiceNameChar))

/-- `RequestValidator.ALLOWED_COMMANDS`. -/
def ALLOWED_COMMANDS : List String :=
  ["createService", "removeService", "startService", "stopService",
   "enableService", "disableService", "getStatus", "getLogs"]

/-- `RequestValidator.MAX_CONTENT_SIZE` (64 KiB). -/
def MAX_CONTENT_SIZE : Nat := 65536

/-- The blocklist of `RequestValidator._is_safe_systemd_content`. -/
def dangerous_patterns : List String :=
  ["ExecStartPre=/bin/rm", "ExecStart=/bin/rm", "ExecStart=rm ", "../",
   "/etc/passwd", "/etc/shadow", "sudo", "su "]

/-- Python `needle in hay` on strings (substring containment). -/
def containsSublist (needle : List Char) : List Char → Bool
  | [] => needle.isEmpty
  | c :: rest => needle.isPrefixOf (c :: rest) || containsSublist needle rest

/-- `RequestValidator._is_safe_systemd_content`: none of the lowercased
dangerous patterns occurs in the lowercased content. -/
def is_safe_systemd_content (content : String) : Bool :=
  dangerous_patterns.all
    (fun p => !(containsSublist p.toLower.toList content.toLower.toList))

/-- The helper-request payload: `serviceName`, and the `createService`
fields with their `payload.get(..., "")` defaults. -/
structure HelperPayload where
  serviceName : Option String
  templateContent : String
  overrideConfig : String
deriving Repr, DecidableEq

/-- `RequestValidator._validate_service_name` (a missing or empty name
is falsy in Python). -/
def validate_service_name (service_name : Option String) :
    Except String Unit :=
  match service_name with
  | none => .error "Service name is required"
  | some s =>
    if s = "" then .error "Service name is required"
    else if service_name_matches s then .ok ()
    else .error ("Invalid service name: " ++ s)

/-- `RequestValidator._validate_create_service`. -/
def validate_create_service (payload : HelperPayload) : Except String Unit :=
  if payload.templateContent.length > MAX_CONTENT_SIZE then
    .error "Template content too large"
  else if payload.overrideConfig.length > MAX_CONTENT_SIZE then
    .error "Override config too large"
  else if payload.templateContent ≠ "" &&
      !(is_safe_systemd_content payload.templateContent) then
    .error "Invalid template content"
  else if payload.overrideConfig ≠ "" &&
      !(is_safe_systemd_content payload.overrideConfig) then
    .error "Invalid override config"
  else .ok ()

/-- `RequestValidator.validate_request`: the command must be allowed,
the `serviceName` must match the pattern for every command, and
`createService` payloads get the content checks. -/
def validate_request (command : Option String) (payload : HelperPayload) :
    Except String Unit :=
  match command with
  | none => .error "Invalid command: None"
  | some cmd =>
    if !(ALLOWED_COMMANDS.contains cmd) then
      .error ("Invalid command: " ++ cmd)
    else
      match validate_service_name payload.serviceName with
      | .error e => .error e
      | .ok _ =>
        if cmd = "createService" then validate_create_service payload
        else .ok ()

/-- A privileged action taken by a helper route: a write under
`/etc/systemd/system`, a directory creation, or an init-manager /
journal invocation. -/
inductive Effect where
  | write_file (path : String)
  | make_dir (path : String)
  | systemctl (args : List String)
  | journalctl (unit : String)
deriving Repr, DecidableEq

/-- `/etc/systemd/system/<serviceName>`. -/
def unit_path (service_name : String) : String :=
  "/etc/systemd/system/" ++ service_name

/-- The `HelperDaemon` routes (daemon.py lines 30-114 and onward):
the privileged effects each handler performs and its outcome.  The
`createService` route calls `validator.validate_request` first and
performs nothing on a validation error; every other route reads
`payload["serviceName"]` (a missing key is a `KeyError`, converted to an
error response by the framework) and invokes `systemctl`/`journalctl`
directly, without consulting the validator.  File-existence-conditional
removals in `removeService` are modelled as always-present; the claim
is about whether any privileged action happens at all. -/
def helper_handle (command : String) (payload : HelperPayload) :
    List Effect × Except String String :=
  if command = "createService" then
    match validate_request (some "createService") payload with
    | .error e => ([], .error e)
    | .ok _ =>
      match payload.serviceName with
      | none => ([], .error "KeyError: serviceName")
      | some sn =>
        ((if payload.templateContent ≠ "" then
            [.write_file (unit_path sn)] else []) ++
         (if payload.overrideConfig ≠ "" then
            [.make_dir (unit_path sn ++ ".d"),
             .write_file (unit_path sn ++ ".d/pandemic.conf")] else []) ++
         [.systemctl ["daemon-reload"]], .ok "created")
  else if command = "removeService" then
    match payload.serviceName with
    | none => ([], .error "KeyError: serviceName")
    | some sn =>
      ([.systemctl ["stop", sn], .systemctl ["disable", sn],
        .systemctl ["daemon-reload"]], .ok "removed")
  else if command = "startService" then
    match payload.serviceName with
    | none => ([], .error "KeyError: serviceName")
    | some sn => ([.systemctl ["start", sn]], .ok "started")
  else if command = "stopService" then
    match payload.serviceName with
    | none => ([], .error "KeyError: serviceName")
    | some sn => ([.systemctl ["stop", sn]], .ok "stopped")
  else if command = "enableService" then
    match payload.serviceName with
    | none => ([], .error "KeyError: serviceName")
    | some sn => ([.systemctl ["enable", sn]], .ok "enabled")
  else if command = "disableService" then
    match payload.serviceName with
    | none => ([], .error "KeyError: serviceName")
    | some sn => ([.systemctl ["disable", sn]], .ok "disabled")
  else if command = "getStatus" then
    match payload.serviceName with
    | none => ([], .error "KeyError: serviceName")
    | some sn =>
      ([.systemctl
          ["show", sn,
           "--property=ActiveState,SubState,MainPID,MemoryCurrent"]],
        .ok "status")
  else if command = "getLogs" then
    match payload.serviceName with
    | none => ([], .error "KeyError: serviceName")
    | some sn => ([.journalctl sn], .ok "logs")
  else ([], .error ("Unknown command: " ++ command))

/-- C1 (code bug): the validator rejects `startService` with the
service name `"evil.service"` — yet the daemon's `startService` route
never calls the validator and runs `systemctl start evil.service`,
returning success.  Only the `createService` route validates (shown by
contrast: there the same bad name yields an error and an empty effect
list). -/
theorem helper_validation_gap :
    validate_request (some "startService")
      { serviceName := some "evil.service", templateContent := "",
        overrideConfig := "" } =
      .error ("Invalid service name: " ++ "evil.service") ∧
    helper_handle "startService"
      { serviceName := some "evil.service", templateContent := "",
        overrideConfig := "" } =
      ([.systemctl ["start", "evil.service"]], .ok "started") ∧
    helper_handle "createService"
      { serviceName := some "evil.service", templateContent := "",
        overrideConfig := "" } =
      ([], .error ("Invalid service name: " ++ "evil.service")) :=
  ⟨rfl, rfl, rfl⟩

end Pandemic
